import Mathlib

/-!
Verification development for the bb-storage blobstore layer: a shallow
embedding of the circular-log backend, the buffer abstraction (error
buffer, cloned fan-out buffer, error-handling buffer) and the remote
content-addressable-storage backend, with theorems checking the spec
claims against the code.
-/

/-- Errors as compared by the Go code: io.EOF is a distinguished sentinel
compared by identity; gRPC NotFound statuses and plain errors.New
messages are carried as values. -/
inductive GoError where
  | eof
  | notFound (msg : String)
  | msg (s : String)
deriving DecidableEq, Repr

/-! ## Circular-log backend: circularBlobAccess.Put

The Put method of circularBlobAccess
(content_addressable_storage_blob_access.go, circular package) performs,
in order: b.GetSizeBytes(); on error, b.Discard() and return the error.
Then b.ToReader(); stateStore.Allocate(sizeBytes) under the lock;
dataStore.Put(r, offset) outside the lock; then, under the lock again,
cursors := stateStore.GetCursors() and, if cursors.Contains(offset,
sizeBytes), offsetStore.Put(digest, offset, sizeBytes, cursors),
otherwise the stale error. We embed it as a function of an environment
that supplies the result of each external call, and record the calls
made as a trace of events. -/

/-- One external call made by circularBlobAccess.Put. -/
inductive PutEvent where
  | bufDiscard
  | bufToReader
  | allocate (sizeBytes : Int)
  | dataStorePut (offset : Nat)
  | getCursors
  | offsetStorePut (offset : Nat) (sizeBytes : Int)
deriving DecidableEq, Repr

/-- Results of the external calls that circularBlobAccess.Put makes: the
buffer size, the allocation result, the data-store write result, the
value of cursors.Contains(offset, sizeBytes) at the re-check under the
lock, and the offset-store commit result. -/
structure PutEnv where
  getSizeBytes : Except GoError Int
  allocate : Except GoError Nat
  dataStorePut : Option GoError
  cursorsContain : Nat → Int → Bool
  offsetStorePut : Option GoError
deriving Inhabited

/-- The stale error built by errors.New in circularBlobAccess.Put. -/
def staleError : GoError := .msg "Data became stale before write completed"

/-- Shallow embedding of circularBlobAccess.Put: returns the error result
(none means success) together with the trace of external calls made, in
order. -/
def circularPut (env : PutEnv) : Option GoError × List PutEvent :=
  match env.getSizeBytes with
  | .error e => (some e, [.bufDiscard])
  | .ok sizeBytes =>
    match env.allocate with
    | .error e => (some e, [.bufToReader, .allocate sizeBytes])
    | .ok offset =>
      match env.dataStorePut with
      | some e => (some e, [.bufToReader, .allocate sizeBytes, .dataStorePut offset])
      | none =>
        if env.cursorsContain offset sizeBytes then
          (env.offsetStorePut,
           [.bufToReader, .allocate sizeBytes, .dataStorePut offset, .getCursors,
            .offsetStorePut offset sizeBytes])
        else
          (some staleError,
           [.bufToReader, .allocate sizeBytes, .dataStorePut offset, .getCursors])

/-! ## Cloned fan-out buffer: casClonedBuffer

casClonedBuffer (cas_cloned_buffer.go) coordinates several consumers of
one buffer. Its mutable state, guarded by a lock, is consumersRemaining
(a uint, starting at 1 from newCASClonedBuffer), the list
consumersWaiting of channels of blocked consumers (we track its length),
and the infectious needsValidation flag. We embed toChunkReader and
CloneStream as state transformers; the Go panic calls are embedded as
the Except.error constructor, carrying the panic message. -/

/-- The lock-protected fields of casClonedBuffer. consumersWaiting holds
the length of the consumersWaiting slice of channels. -/
structure CASClonedState where
  consumersRemaining : Nat
  consumersWaiting : Nat
  needsValidation : Bool
deriving DecidableEq, Repr

/-- State installed by newCASClonedBuffer: one pending consumer, no
waiting channels, no validation demanded yet. -/
def newCASClonedState : CASClonedState :=
  { consumersRemaining := 1, consumersWaiting := 0, needsValidation := false }

/-- Which reader the last consumer builds over the base buffer: the
checksum-validating base.ToChunkReader(0, chunkSizeDontCare) or the
base.toUnvalidatedChunkReader(0, chunkSizeDontCare). -/
inductive UnderlyingReader where
  | baseToChunkReader
  | baseToUnvalidatedChunkReader
deriving DecidableEq, Repr

/-- What one casClonedBuffer.toChunkReader call produces. waiting: this
consumer appended a channel to consumersWaiting and blocks until the
last consumer hands it the multiplexed reader. built: this consumer was
the last to declare; it constructed the underlying reader, called
newMultiplexedChunkReader(r, len(consumersWaiting)) — multiplexerArg is
that length argument — delivered the multiplexed reader to every waiting
channel and also returned it itself, so consumersServed counts the
waiting consumers plus this calling consumer. -/
inductive ToChunkReaderOutcome where
  | waiting
  | built (underlying : UnderlyingReader) (multiplexerArg : Nat) (consumersServed : Nat)
deriving DecidableEq, Repr

/-- Shallow embedding of casClonedBuffer.toChunkReader: Except.error is
the Go panic. -/
def toChunkReaderStep (b : CASClonedState) (needsValidation : Bool) :
    Except String (ToChunkReaderOutcome × CASClonedState) :=
  if b.consumersRemaining = 0 then
    .error "Attempted to obtain a chunk reader for a buffer that is already fully consumed"
  else
    let remaining := b.consumersRemaining - 1
    let nv := b.needsValidation || needsValidation
    if remaining = 0 then
      .ok (.built (if nv then .baseToChunkReader else .baseToUnvalidatedChunkReader)
             b.consumersWaiting (b.consumersWaiting + 1),
           { consumersRemaining := 0, consumersWaiting := b.consumersWaiting,
             needsValidation := nv })
    else
      .ok (.waiting,
           { consumersRemaining := remaining, consumersWaiting := b.consumersWaiting + 1,
             needsValidation := nv })

/-- Shallow embedding of casClonedBuffer.CloneStream: Except.error is the
Go panic; on success both returned handles alias the same state, whose
consumersRemaining was incremented. -/
def cloneStream (b : CASClonedState) : Except String CASClonedState :=
  if b.consumersRemaining = 0 then
    .error "Attempted to clone stream for a buffer that is already fully consumed"
  else
    .ok { b with consumersRemaining := b.consumersRemaining + 1 }

/-- Repeated CloneStream calls. -/
def applyClones : CASClonedState → Nat → Except String CASClonedState
  | b, 0 => .ok b
  | b, k + 1 =>
    match cloneStream b with
    | .error e => .error e
    | .ok b2 => applyClones b2 k

/-- The terminal operations of casClonedBuffer that reach toChunkReader,
together with the needsValidation flag each one passes, read off the
source: IntoWriter, ReadAt, ToByteSlice, ToChunkReader and ToReader pass
true (ToActionResult goes through toActionResultViaByteSlice, hence
through ToByteSlice, hence true); Discard and toUnvalidatedChunkReader
(and toUnvalidatedReader through it) pass false. -/
inductive ConsumerOp where
  | intoWriter
  | readAt
  | toActionResult
  | toByteSlice
  | toChunkReaderOp
  | toReaderOp
  | discard
  | unvalidatedChunkReader
  | unvalidatedReader
deriving DecidableEq, Repr

/-- The literal needsValidation argument each operation passes to
casClonedBuffer.toChunkReader. -/
def ConsumerOp.needsValidationFlag : ConsumerOp → Bool
  | .discard => false
  | .unvalidatedChunkReader => false
  | .unvalidatedReader => false
  | _ => true

/-- Run a sequence of toChunkReader declarations, threading the state and
dropping the per-consumer outcomes. -/
def runDeclarations : CASClonedState → List Bool → Except String CASClonedState
  | b, [] => .ok b
  | b, d :: ds =>
    match toChunkReaderStep b d with
    | .error e => .error e
    | .ok (_, b2) => runDeclarations b2 ds

/-! ## Error-handling buffer: casErrorHandlingBuffer

casErrorHandlingBuffer (cas_error_handling_buffer.go) wraps a base
buffer and an ErrorHandler with OnError(error) (Buffer, error) and
Done(). The base buffers are arbitrary implementations of the Buffer
interface, so we keep them as an abstract type B and model one
whole-buffer operation as a function f : B to (result, error-or-none).
The handler is modelled as the list of responses its successive OnError
calls return: Sum.inl b2 is (b2, nil), Sum.inr e is (ignored, e). -/

/-- Observable calls made during an error-handling buffer operation. -/
inductive EHEvent (B : Type) where
  | attempt (b : B)
  | onError (e : GoError)
  | done
deriving DecidableEq, Repr

/-- Whether an event is the Done() call on the error handler. -/
def EHEvent.isDone {B : Type} : EHEvent B → Bool
  | .done => true
  | _ => false

/-- Shallow embedding of the loop body of
casErrorHandlingBuffer.tryRepeatedly. The result is none when the
supplied list of OnError responses is exhausted while attempts still
fail, in which case the Go loop is still running and nothing has been
returned yet. The trace records attempts and OnError calls in order. -/
def tryLoop {B R : Type} (f : B → R × Option GoError) :
    B → List (B ⊕ GoError) → Option (R × Option GoError) × List (EHEvent B)
  | b, [] =>
    match (f b).2 with
    | none => (some (f b), [.attempt b])
    | some e =>
      if e = GoError.eof then (some (f b), [.attempt b])
      else (none, [.attempt b, .onError e])
  | b, .inl b2 :: rs2 =>
    match (f b).2 with
    | none => (some (f b), [.attempt b])
    | some e =>
      if e = GoError.eof then (some (f b), [.attempt b])
      else
        let p := tryLoop f b2 rs2
        (p.1, .attempt b :: .onError e :: p.2)
  | b, .inr te :: _ =>
    match (f b).2 with
    | none => (some (f b), [.attempt b])
    | some e =>
      if e = GoError.eof then (some (f b), [.attempt b])
      else (some ((f b).1, some te), [.attempt b, .onError e])

/-- Shallow embedding of casErrorHandlingBuffer.tryRepeatedly: the
deferred errorHandler.Done() runs exactly when the function returns,
i.e. when the loop produced a result. -/
def tryRepeatedly {B R : Type} (f : B → R × Option GoError) (b : B)
    (rs : List (B ⊕ GoError)) : Option (R × Option GoError) × List (EHEvent B) :=
  let p := tryLoop f b rs
  if p.1.isSome then (p.1, p.2 ++ [.done]) else p

/-- casErrorHandlingBuffer.ReadAt runs its whole body through
tryRepeatedly, the attempt being base.ReadAt(p, off); the result value
is the byte count n from the last attempt. -/
def ehReadAt {B : Type} (readAtBase : B → Nat × Option GoError) (b : B)
    (rs : List (B ⊕ GoError)) : Option (Nat × Option GoError) × List (EHEvent B) :=
  tryRepeatedly readAtBase b rs

/-- casErrorHandlingBuffer.ToByteSlice through tryRepeatedly, the attempt
being base.ToByteSlice(maximumSizeBytes). -/
def ehToByteSlice {B : Type} (toByteSliceBase : B → List Nat × Option GoError) (b : B)
    (rs : List (B ⊕ GoError)) :
    Option (List Nat × Option GoError) × List (EHEvent B) :=
  tryRepeatedly toByteSliceBase b rs

/-- Stand-in for the remoteexecution.ActionResult proto value. -/
abbrev ActionResultModel := Option (List Nat)

/-- casErrorHandlingBuffer.ToActionResult through tryRepeatedly, the
attempt being base.ToActionResult(maximumSizeBytes). -/
def ehToActionResult {B : Type} (toActionResultBase : B → ActionResultModel × Option GoError)
    (b : B) (rs : List (B ⊕ GoError)) :
    Option (ActionResultModel × Option GoError) × List (EHEvent B) :=
  tryRepeatedly toActionResultBase b rs

/-- Specification of what the retry loop may return, stated directly from
the spec sentence: attempts are restarted in their entirety against each
replacement buffer handed out by OnError, until an attempt succeeds
(nil or io.EOF) or OnError translates the error, which is returned. -/
inductive RetryOutcome {B R : Type} (f : B → R × Option GoError) :
    B → List (B ⊕ GoError) → R × Option GoError → Prop where
  | succeeds (b : B) (rs : List (B ⊕ GoError)) (h : (f b).2 = none) :
      RetryOutcome f b rs (f b)
  | eofReturn (b : B) (rs : List (B ⊕ GoError)) (h : (f b).2 = some GoError.eof) :
      RetryOutcome f b rs (f b)
  | translated (b : B) (rs : List (B ⊕ GoError)) (e te : GoError)
      (h : (f b).2 = some e) (hne : e ≠ GoError.eof) :
      RetryOutcome f b (.inr te :: rs) ((f b).1, some te)
  | retries (b b2 : B) (rs : List (B ⊕ GoError)) (e : GoError) (r : R × Option GoError)
      (h : (f b).2 = some e) (hne : e ≠ GoError.eof)
      (hrest : RetryOutcome f b2 rs r) :
      RetryOutcome f b (.inl b2 :: rs) r

/-! ## Reader chain shapes

The streaming operations of casErrorHandlingBuffer build chains of
reader decorators. We record the shape of the chain each operation
constructs, following the source: toUnvalidatedChunkReader(off, policy)
is newErrorHandlingChunkReader(base, errorHandler, off, policy) — the
retrying reader directly over the base buffer; toValidatedChunkReader is
newCASValidatingChunkReader over toUnvalidatedChunkReader(0); IntoWriter
streams through toValidatedChunkReader; ToChunkReader(off) wraps
toValidatedChunkReader in newOffsetChunkReader after checking the
offset; ToReader is newCASValidatingReader over toUnvalidatedReader(0),
which is newErrorHandlingReader(base, errorHandler, 0). -/

/-- Shapes of the reader decorators stacked by the buffer code. The
inner argument is the upstream the decorator pulls from; baseBuffer is
the wrapped base buffer itself. -/
inductive ReaderChain where
  | baseBuffer
  | errorHandlingChunkReader (off : Int) (inner : ReaderChain)
  | casValidatingChunkReader (inner : ReaderChain)
  | offsetChunkReader (off : Int) (inner : ReaderChain)
  | errorChunkReader (e : GoError)
  | errorHandlingReader (off : Int) (inner : ReaderChain)
  | casValidatingReader (inner : ReaderChain)
deriving DecidableEq, Repr

/-- casErrorHandlingBuffer.toUnvalidatedChunkReader: the retrying chunk
reader pulling replacement buffers through the error handler, opened at
the given offset, directly over the base buffer. -/
def toUnvalidatedChunkReaderChain (off : Int) : ReaderChain :=
  .errorHandlingChunkReader off .baseBuffer

/-- casErrorHandlingBuffer.toValidatedChunkReader: the checksum
validator over the retrying reader opened at offset 0. -/
def toValidatedChunkReaderChain : ReaderChain :=
  .casValidatingChunkReader (toUnvalidatedChunkReaderChain 0)

/-- The chunk-reader chain casErrorHandlingBuffer.IntoWriter streams
through. -/
def intoWriterReaderChain : ReaderChain := toValidatedChunkReaderChain

/-- Modelled from the spec: validateReaderOffset is not among the
provided source files; per the spec, ToChunkReader "fails if offset
exceeds size", offsets being byte positions within the blob, so the
offset is accepted exactly when 0 ≤ off ≤ sizeBytes. -/
def validateReaderOffset (sizeBytes off : Int) : Option GoError :=
  if 0 ≤ off ∧ off ≤ sizeBytes then none else some (.msg "Buffer is smaller than the requested offset")

/-- casErrorHandlingBuffer.ToChunkReader: on a bad offset the buffer is
discarded and an error chunk reader returned; otherwise an offset
chunk reader over the validated chain. -/
def ehToChunkReaderChain (sizeBytes off : Int) : ReaderChain :=
  match validateReaderOffset sizeBytes off with
  | some e => .errorChunkReader e
  | none => .offsetChunkReader off toValidatedChunkReaderChain

/-- casErrorHandlingBuffer.toUnvalidatedReader: the retrying io.Reader
directly over the base buffer. -/
def toUnvalidatedReaderChain (off : Int) : ReaderChain :=
  .errorHandlingReader off .baseBuffer

/-- casErrorHandlingBuffer.ToReader: the validating reader over the
retrying reader opened at offset 0. -/
def toReaderChain : ReaderChain :=
  .casValidatingReader (toUnvalidatedReaderChain 0)

/-- True when every retrying (error-handling) node of the chain lies
strictly beneath some checksum-validating node, so errors surfacing from
the validator itself can never be seen by the error handler below it. -/
def retryOnlyInsideValidation : ReaderChain → Bool
  | .baseBuffer => true
  | .errorChunkReader _ => true
  | .errorHandlingChunkReader _ _ => false
  | .errorHandlingReader _ _ => false
  | .casValidatingChunkReader _ => true
  | .casValidatingReader _ => true
  | .offsetChunkReader _ inner => retryOnlyInsideValidation inner

/-- True when the chain contains a checksum-validating node whose direct
upstream is the retrying reader over the base buffer, possibly below
outer offset-skipping nodes. -/
def validatorDirectlyAtopRetryOverBase : ReaderChain → Bool
  | .casValidatingChunkReader (.errorHandlingChunkReader _ .baseBuffer) => true
  | .casValidatingReader (.errorHandlingReader _ .baseBuffer) => true
  | .offsetChunkReader _ inner => validatorDirectlyAtopRetryOverBase inner
  | _ => false

/-! ## Error buffer: errorBuffer

errorBuffer (error_buffer.go) stores one error and returns it from every
operation. -/

/-- The errorBuffer struct: one stored error. -/
structure ErrorBufferModel where
  err : GoError
deriving DecidableEq, Repr

/-- NewBufferFromError. -/
def newBufferFromError (e : GoError) : ErrorBufferModel := { err := e }

/-- errorBuffer.GetSizeBytes returns (0, err). -/
def ebGetSizeBytes (b : ErrorBufferModel) : Int × Option GoError := (0, some b.err)

/-- errorBuffer.IntoWriter returns err. -/
def ebIntoWriter (b : ErrorBufferModel) : Option GoError := some b.err

/-- errorBuffer.ReadAt returns (0, err). -/
def ebReadAt (b : ErrorBufferModel) : Nat × Option GoError := (0, some b.err)

/-- errorBuffer.ToActionResult returns (nil, err). -/
def ebToActionResult (b : ErrorBufferModel) : ActionResultModel × Option GoError :=
  (none, some b.err)

/-- errorBuffer.ToByteSlice returns (nil, err). -/
def ebToByteSlice (b : ErrorBufferModel) : Option (List Nat) × Option GoError :=
  (none, some b.err)

/-- errorBuffer.ToChunkReader ignores the offset and policy and returns
newErrorChunkReader(err). -/
def ebToChunkReader (b : ErrorBufferModel) (_off : Int) : ReaderChain :=
  .errorChunkReader b.err

/-- errorBuffer.toUnvalidatedChunkReader, identical to ToChunkReader. -/
def ebToUnvalidatedChunkReader (b : ErrorBufferModel) (_off : Int) : ReaderChain :=
  .errorChunkReader b.err

/-- Modelled from the spec: error_chunk_reader.go is not among the
provided source files; the spec lists the "error (always fails)"
ChunkReader variant, so every Read on it returns the stored error. -/
def errorChunkReaderRead (e : GoError) : Except GoError (List Nat) := .error e

/-- The io.ReadCloser built by newErrorReader: it holds the one error it
was created with. -/
structure ErrorReaderModel where
  err : GoError
deriving DecidableEq, Repr

/-- errorBuffer.ToReader returns newErrorReader(b.err). -/
def ebToReader (b : ErrorBufferModel) : ErrorReaderModel := { err := b.err }

/-- errorBuffer.toUnvalidatedReader, identical to ToReader. -/
def ebToUnvalidatedReader (b : ErrorBufferModel) (_off : Int) : ErrorReaderModel :=
  { err := b.err }

/-- Modelled from the spec: error_reader.go is not among the provided
source files; the spec lists the "error (always fails)" reader variant,
so every Read on the reader returned by newErrorReader fails with the
stored error. -/
def errorReaderRead (r : ErrorReaderModel) : Except GoError (List Nat) := .error r.err

/-- errorBuffer.CloneCopy returns the very same buffer twice. -/
def ebCloneCopy (b : ErrorBufferModel) : ErrorBufferModel × ErrorBufferModel := (b, b)

/-- errorBuffer.CloneStream returns the very same buffer twice. -/
def ebCloneStream (b : ErrorBufferModel) : ErrorBufferModel × ErrorBufferModel := (b, b)

/-- errorBuffer.Discard does nothing and cannot fail. -/
def ebDiscard (_ : ErrorBufferModel) : Option GoError := none

/-- Result of errorBuffer.applyErrorHandler: either the replacement
buffer handed out by OnError, or a fresh error buffer holding the
translated error; the Bool is the shouldRetry return value. -/
inductive ApplyEHResult (B : Type) where
  | replaced (b : B) (shouldRetry : Bool)
  | errorBuf (b : ErrorBufferModel) (shouldRetry : Bool)
deriving DecidableEq, Repr

/-- errorBuffer.applyErrorHandler: OnError(err) is invoked immediately;
the handler response is modelled as in tryLoop. When the handler
translates the error, Done() is called and an error buffer holding the
translated error is returned with shouldRetry false; otherwise the
replacement buffer is returned with shouldRetry true and the handler
session stays open. -/
def ebApplyErrorHandler {B : Type} (b : ErrorBufferModel) (response : B ⊕ GoError) :
    ApplyEHResult B × List (EHEvent B) :=
  match response with
  | .inl nb => (.replaced nb true, [.onError b.err])
  | .inr te => (.errorBuf (newBufferFromError te) false, [.onError b.err, .done])

/-! ## Remote backend resource names

contentAddressableStorageBlobAccess derives ByteStream resource names
with fmt.Sprintf; digest.GetInstance() is the namespace, possibly empty,
GetHashString() the hash, GetSizeBytes() the size. Put draws one fresh
uuid from the injected generator per call. -/

/-- The digest fields the remote backend reads. -/
structure DigestModel where
  hashString : String
  sizeBytes : Int
  instanceName : String
deriving DecidableEq, Repr

/-- Resource name built by contentAddressableStorageBlobAccess.Get:
blobs/hash/size, prefixed by the instance name when non-empty. -/
def getReadResourceName (d : DigestModel) : String :=
  if d.instanceName = "" then
    "blobs/" ++ d.hashString ++ "/" ++ toString d.sizeBytes
  else
    d.instanceName ++ "/blobs/" ++ d.hashString ++ "/" ++ toString d.sizeBytes

/-- Resource name built by contentAddressableStorageBlobAccess.Put for a
given uuid string: uploads/uuid/blobs/hash/size, prefixed by the
instance name when non-empty. -/
def putWriteResourceName (d : DigestModel) (u : String) : String :=
  if d.instanceName = "" then
    "uploads/" ++ u ++ "/blobs/" ++ d.hashString ++ "/" ++ toString d.sizeBytes
  else
    d.instanceName ++ "/uploads/" ++ u ++ "/blobs/" ++ d.hashString ++ "/" ++ toString d.sizeBytes

/-- contentAddressableStorageBlobAccess.Put calls uuid.Must on one fresh
draw from the injected uuidGenerator and embeds it in the resource name;
the generator is modelled as a state transformer so freshness is the
advancing of its state. -/
def casPutResourceName {G : Type} (d : DigestModel) (uuidGenerator : G → String × G)
    (g : G) : String × G :=
  let p := uuidGenerator g
  (putWriteResourceName d p.1, p.2)

/-- The read resource name as the spec writes it:
[namespace/]blobs/hash/size. -/
def specReadResourceName (d : DigestModel) : String :=
  (if d.instanceName = "" then "" else d.instanceName ++ "/") ++
    "blobs/" ++ d.hashString ++ "/" ++ toString d.sizeBytes

/-- The write resource name as the spec writes it:
[namespace/]uploads/uuid/blobs/hash/size. -/
def specWriteResourceName (d : DigestModel) (u : String) : String :=
  (if d.instanceName = "" then "" else d.instanceName ++ "/") ++
    "uploads/" ++ u ++ "/blobs/" ++ d.hashString ++ "/" ++ toString d.sizeBytes

/-! ## Theorems -/

/-- C1: after the data bytes have been written to the DataStore,
circularBlobAccess.Put re-acquires the lock, re-reads the Cursors and
commits the offset-index entry via OffsetStore.Put only if the cursors
still contain the allocated region; if they do not, Put returns the
stale-allocation error and OffsetStore.Put is never called. -/
theorem circularPut_commit_only_if_cursors_contain (env : PutEnv) (s : Int) (off : Nat)
    (h1 : env.getSizeBytes = .ok s) (h2 : env.allocate = .ok off)
    (h3 : env.dataStorePut = none) :
    (env.cursorsContain off s = true →
      circularPut env =
        (env.offsetStorePut,
         [.bufToReader, .allocate s, .dataStorePut off, .getCursors,
          .offsetStorePut off s])) ∧
    (env.cursorsContain off s = false →
      (circularPut env).1 = some staleError ∧
      ∀ o s2, PutEvent.offsetStorePut o s2 ∉ (circularPut env).2) := by
  constructor <;> intro hc <;> simp [circularPut, h1, h2, h3, hc]

/-- Witness for C1 at a concrete environment whose cursors no longer
contain the allocated region. -/
theorem circularPut_commit_only_if_cursors_contain_witness :
    (circularPut
      { getSizeBytes := .ok 5, allocate := .ok 0, dataStorePut := none,
        cursorsContain := fun _ _ => false, offsetStorePut := none }).1 =
      some staleError ∧
    ∀ o s2, PutEvent.offsetStorePut o s2 ∉
      (circularPut
        { getSizeBytes := .ok 5, allocate := .ok 0, dataStorePut := none,
          cursorsContain := fun _ _ => false, offsetStorePut := none }).2 :=
  (circularPut_commit_only_if_cursors_contain _ 5 0 rfl rfl rfl).2 rfl

/-- C10: if GetSizeBytes on the input buffer fails,
circularBlobAccess.Put discards the buffer and returns that error; the
trace is exactly the Discard call, so Allocate, DataStore.Put and
OffsetStore.Put are never reached. -/
theorem circularPut_sizeBytes_error_leaves_stores_untouched (env : PutEnv) (e : GoError)
    (h : env.getSizeBytes = .error e) :
    circularPut env = (some e, [.bufDiscard]) ∧
    (∀ s, PutEvent.allocate s ∉ (circularPut env).2) ∧
    (∀ o, PutEvent.dataStorePut o ∉ (circularPut env).2) ∧
    (∀ o s, PutEvent.offsetStorePut o s ∉ (circularPut env).2) := by
  simp [circularPut, h]

/-- Witness for C10 at a concrete environment whose buffer size request
fails. -/
theorem circularPut_sizeBytes_error_leaves_stores_untouched_witness :
    circularPut
      { getSizeBytes := .error (.msg "broken"), allocate := .ok 0, dataStorePut := none,
        cursorsContain := fun _ _ => true, offsetStorePut := none } =
      (some (.msg "broken"), [.bufDiscard]) ∧
    (∀ s, PutEvent.allocate s ∉
      (circularPut
        { getSizeBytes := .error (.msg "broken"), allocate := .ok 0, dataStorePut := none,
          cursorsContain := fun _ _ => true, offsetStorePut := none }).2) ∧
    (∀ o, PutEvent.dataStorePut o ∉
      (circularPut
        { getSizeBytes := .error (.msg "broken"), allocate := .ok 0, dataStorePut := none,
          cursorsContain := fun _ _ => true, offsetStorePut := none }).2) ∧
    (∀ o s, PutEvent.offsetStorePut o s ∉
      (circularPut
        { getSizeBytes := .error (.msg "broken"), allocate := .ok 0, dataStorePut := none,
          cursorsContain := fun _ _ => true, offsetStorePut := none }).2) :=
  circularPut_sizeBytes_error_leaves_stores_untouched _ (.msg "broken") rfl

/-- C6: once consumersRemaining has reached zero, obtaining a chunk
reader (the path every terminal operation takes) and CloneStream both
panic — embedded as Except.error carrying the panic message — and while
at least one consumer handle is outstanding neither operation panics. -/
theorem clonedBuffer_consumed_operations_panic (b : CASClonedState) (v : Bool) :
    (b.consumersRemaining = 0 →
      toChunkReaderStep b v =
        .error "Attempted to obtain a chunk reader for a buffer that is already fully consumed" ∧
      cloneStream b =
        .error "Attempted to clone stream for a buffer that is already fully consumed") ∧
    (b.consumersRemaining ≠ 0 →
      (∃ out, toChunkReaderStep b v = .ok out) ∧ ∃ b2, cloneStream b = .ok b2) := by
  refine ⟨fun h => by simp [toChunkReaderStep, cloneStream, h], fun h => ⟨?_, ?_⟩⟩
  · unfold toChunkReaderStep
    rw [if_neg h]
    by_cases h1 : b.consumersRemaining - 1 = 0 <;> simp [h1]
  · exact ⟨_, by unfold cloneStream; rw [if_neg h]⟩

/-- Witness for C6: both directions at concrete states. -/
theorem clonedBuffer_consumed_operations_panic_witness :
    (toChunkReaderStep
        { consumersRemaining := 0, consumersWaiting := 0, needsValidation := false } true =
      .error "Attempted to obtain a chunk reader for a buffer that is already fully consumed" ∧
     cloneStream
        { consumersRemaining := 0, consumersWaiting := 0, needsValidation := false } =
      .error "Attempted to clone stream for a buffer that is already fully consumed") ∧
    ((∃ out, toChunkReaderStep newCASClonedState true = .ok out) ∧
      ∃ b2, cloneStream newCASClonedState = .ok b2) :=
  ⟨(clonedBuffer_consumed_operations_panic _ true).1 rfl,
   (clonedBuffer_consumed_operations_panic newCASClonedState true).2 (by decide)⟩

/-- Repeated CloneStream calls on a live buffer succeed and add one
outstanding consumer each. -/
theorem applyClones_ok (k : Nat) : ∀ b : CASClonedState, 1 ≤ b.consumersRemaining →
    applyClones b k = .ok { b with consumersRemaining := b.consumersRemaining + k } := by
  induction k with
  | zero => intro b _; simp [applyClones]
  | succ k ih =>
    intro b h
    have h0 : ¬ b.consumersRemaining = 0 := by omega
    rw [applyClones, cloneStream, if_neg h0]
    show applyClones
      { consumersRemaining := b.consumersRemaining + 1, consumersWaiting := b.consumersWaiting,
        needsValidation := b.needsValidation } k = _
    rw [ih _ (by simp)]
    simp only [Except.ok.injEq, CASClonedState.mk.injEq, and_true, eq_self_iff_true]
    omega

/-- Running strictly fewer declarations than there are outstanding
consumers leaves the buffer unbuilt: each declaration decrements
consumersRemaining, appends one waiting channel and ors in its
needsValidation flag. -/
theorem runDeclarations_ok (ds : List Bool) : ∀ b : CASClonedState,
    ds.length < b.consumersRemaining →
    runDeclarations b ds = .ok
      { consumersRemaining := b.consumersRemaining - ds.length,
        consumersWaiting := b.consumersWaiting + ds.length,
        needsValidation := b.needsValidation || ds.any id } := by
  induction ds with
  | nil => intro b _; simp [runDeclarations]
  | cons d ds ih =>
    intro b h
    simp only [List.length_cons] at h
    have h0 : ¬ b.consumersRemaining = 0 := by omega
    have h1 : ¬ b.consumersRemaining - 1 = 0 := by omega
    rw [runDeclarations, toChunkReaderStep, if_neg h0]
    simp only [if_neg h1]
    rw [ih _ (by simp; omega)]
    simp only [Except.ok.injEq, CASClonedState.mk.injEq, List.length_cons, List.any_cons]
    refine ⟨by omega, by omega, ?_⟩
    simp [Bool.or_assoc]

/-- C2: with n outstanding consumer handles — one initial plus one per
CloneStream call — the last handle to declare its constraints builds the
single underlying chunk reader and wraps it in the multiplexed reader;
the constructor receives the n-1 waiting channels and the multiplexed
reader is served to those n-1 waiting consumers plus the constructing
consumer itself, i.e. to all n outstanding handles. -/
theorem clonedBuffer_multiplexer_serves_all_handles (n : Nat) (hn : 1 ≤ n)
    (ds : List Bool) (hds : ds.length = n - 1) (d : Bool) :
    applyClones newCASClonedState (n - 1) =
      .ok { consumersRemaining := n, consumersWaiting := 0, needsValidation := false } ∧
    runDeclarations
      { consumersRemaining := n, consumersWaiting := 0, needsValidation := false } ds =
      .ok { consumersRemaining := 1, consumersWaiting := n - 1,
            needsValidation := ds.any id } ∧
    toChunkReaderStep
      { consumersRemaining := 1, consumersWaiting := n - 1, needsValidation := ds.any id }
      d =
      .ok (.built (if ds.any id || d then .baseToChunkReader else .baseToUnvalidatedChunkReader)
             (n - 1) n,
           { consumersRemaining := 0, consumersWaiting := n - 1,
             needsValidation := ds.any id || d }) := by
  refine ⟨?_, ?_, ?_⟩
  · rw [applyClones_ok (n - 1) newCASClonedState (by simp [newCASClonedState])]
    simp only [newCASClonedState, Except.ok.injEq, CASClonedState.mk.injEq, and_true,
      eq_self_iff_true]
    omega
  · rw [runDeclarations_ok ds _ (by simp; omega)]
    simp only [Except.ok.injEq, CASClonedState.mk.injEq]
    exact ⟨by omega, by omega, by simp⟩
  · have h3 : n - 1 + 1 = n := by omega
    simp [toChunkReaderStep, h3]

/-- Witness for C2 with n = 3: two CloneStream calls, then three
consumers declare. -/
theorem clonedBuffer_multiplexer_serves_all_handles_witness :
    applyClones newCASClonedState 2 =
      .ok { consumersRemaining := 3, consumersWaiting := 0, needsValidation := false } ∧
    runDeclarations
      { consumersRemaining := 3, consumersWaiting := 0, needsValidation := false }
      [true, false] =
      .ok { consumersRemaining := 1, consumersWaiting := 2, needsValidation := true } ∧
    toChunkReaderStep
      { consumersRemaining := 1, consumersWaiting := 2, needsValidation := true } false =
      .ok (.built .baseToChunkReader 2 3,
           { consumersRemaining := 0, consumersWaiting := 2, needsValidation := true }) :=
  clonedBuffer_multiplexer_serves_all_handles 3 (by decide) [true, false] (by decide) false

/-- Mapping the per-operation flags before folding with or gives the
same result as folding the operations directly. -/
theorem anyMapNeedsValidationFlag (os : List ConsumerOp) :
    (os.map ConsumerOp.needsValidationFlag).any id =
      os.any ConsumerOp.needsValidationFlag := by
  induction os with
  | nil => rfl
  | cons a l ih => simp [ih]

/-- C3: the single shared chunk reader built by the last-declaring
consumer is the checksum-validating base.ToChunkReader exactly when at
least one consumer declared that it needs validation, and the
unvalidated reader otherwise; IntoWriter, ReadAt and ToByteSlice declare
true while Discard and toUnvalidatedChunkReader declare false. -/
theorem clonedBuffer_validation_is_infectious (n : Nat) (hn : 1 ≤ n)
    (os : List ConsumerOp) (hos : os.length = n - 1) (o : ConsumerOp) :
    runDeclarations
      { consumersRemaining := n, consumersWaiting := 0, needsValidation := false }
      (os.map ConsumerOp.needsValidationFlag) =
      .ok { consumersRemaining := 1, consumersWaiting := n - 1,
            needsValidation := os.any ConsumerOp.needsValidationFlag } ∧
    toChunkReaderStep
      { consumersRemaining := 1, consumersWaiting := n - 1,
        needsValidation := os.any ConsumerOp.needsValidationFlag }
      o.needsValidationFlag =
      .ok (.built
             (if (os ++ [o]).any ConsumerOp.needsValidationFlag then .baseToChunkReader
              else .baseToUnvalidatedChunkReader)
             (n - 1) n,
           { consumersRemaining := 0, consumersWaiting := n - 1,
             needsValidation := (os ++ [o]).any ConsumerOp.needsValidationFlag }) ∧
    ((os ++ [o]).any ConsumerOp.needsValidationFlag = true ↔
      ∃ op ∈ os ++ [o], op.needsValidationFlag = true) ∧
    ConsumerOp.intoWriter.needsValidationFlag = true ∧
    ConsumerOp.readAt.needsValidationFlag = true ∧
    ConsumerOp.toByteSlice.needsValidationFlag = true ∧
    ConsumerOp.discard.needsValidationFlag = false ∧
    ConsumerOp.unvalidatedChunkReader.needsValidationFlag = false := by
  refine ⟨?_, ?_, ?_, rfl, rfl, rfl, rfl, rfl⟩
  · rw [runDeclarations_ok _ _ (by simp; omega)]
    simp only [Except.ok.injEq, CASClonedState.mk.injEq]
    refine ⟨by simp; omega, by simp; omega, ?_⟩
    simp only [Bool.false_or]
    exact anyMapNeedsValidationFlag os
  · have h3 : n - 1 + 1 = n := by omega
    simp [toChunkReaderStep, h3, List.any_append]
  · exact List.any_eq_true

/-- Witness for C3 with n = 2: a Discard declares first, a ReadAt
declares last, and the shared reader is validating because of ReadAt. -/
theorem clonedBuffer_validation_is_infectious_witness :
    runDeclarations
      { consumersRemaining := 2, consumersWaiting := 0, needsValidation := false }
      ([ConsumerOp.discard].map ConsumerOp.needsValidationFlag) =
      .ok { consumersRemaining := 1, consumersWaiting := 1,
            needsValidation := [ConsumerOp.discard].any ConsumerOp.needsValidationFlag } ∧
    toChunkReaderStep
      { consumersRemaining := 1, consumersWaiting := 1,
        needsValidation := [ConsumerOp.discard].any ConsumerOp.needsValidationFlag }
      ConsumerOp.readAt.needsValidationFlag =
      .ok (.built
             (if ([ConsumerOp.discard] ++ [ConsumerOp.readAt]).any ConsumerOp.needsValidationFlag
              then .baseToChunkReader else .baseToUnvalidatedChunkReader)
             1 2,
           { consumersRemaining := 0, consumersWaiting := 1,
             needsValidation :=
               ([ConsumerOp.discard] ++ [ConsumerOp.readAt]).any ConsumerOp.needsValidationFlag }) ∧
    (([ConsumerOp.discard] ++ [ConsumerOp.readAt]).any ConsumerOp.needsValidationFlag = true ↔
      ∃ op ∈ [ConsumerOp.discard] ++ [ConsumerOp.readAt], op.needsValidationFlag = true) ∧
    ConsumerOp.intoWriter.needsValidationFlag = true ∧
    ConsumerOp.readAt.needsValidationFlag = true ∧
    ConsumerOp.toByteSlice.needsValidationFlag = true ∧
    ConsumerOp.discard.needsValidationFlag = false ∧
    ConsumerOp.unvalidatedChunkReader.needsValidationFlag = false :=
  clonedBuffer_validation_is_infectious 2 (by decide) [ConsumerOp.discard] (by decide)
    ConsumerOp.readAt

/-- Every terminating run of the retry loop realizes a RetryOutcome. -/
theorem tryLoop_retryOutcome {B R : Type} (f : B → R × Option GoError) :
    ∀ (rs : List (B ⊕ GoError)) (b : B) (r : R × Option GoError),
      (tryLoop f b rs).1 = some r → RetryOutcome f b rs r := by
  intro rs
  induction rs with
  | nil =>
    intro b r h
    rw [tryLoop] at h
    cases h2 : (f b).2 with
    | none =>
      rw [h2] at h
      simp at h
      exact h ▸ RetryOutcome.succeeds b [] h2
    | some e =>
      rw [h2] at h
      by_cases he : e = GoError.eof
      · subst he
        simp at h
        exact h ▸ RetryOutcome.eofReturn b [] h2
      · simp [he] at h
  | cons hd rs ih =>
    intro b r h
    cases hd with
    | inl b2 =>
      rw [tryLoop] at h
      cases h2 : (f b).2 with
      | none =>
        rw [h2] at h
        simp at h
        exact h ▸ RetryOutcome.succeeds b (.inl b2 :: rs) h2
      | some e =>
        rw [h2] at h
        by_cases he : e = GoError.eof
        · subst he
          simp at h
          exact h ▸ RetryOutcome.eofReturn b (.inl b2 :: rs) h2
        · simp [he] at h
          exact RetryOutcome.retries b b2 rs e r h2 he (ih b2 r h)
    | inr te =>
      rw [tryLoop] at h
      cases h2 : (f b).2 with
      | none =>
        rw [h2] at h
        simp at h
        exact h ▸ RetryOutcome.succeeds b (.inr te :: rs) h2
      | some e =>
        rw [h2] at h
        by_cases he : e = GoError.eof
        · subst he
          simp at h
          exact h ▸ RetryOutcome.eofReturn b (.inr te :: rs) h2
        · simp [he] at h
          exact h ▸ RetryOutcome.translated b rs e te h2 he

/-- The retry loop itself never calls Done: the only Done event comes
from the deferred call appended on return. -/
theorem tryLoop_no_done {B R : Type} (f : B → R × Option GoError) :
    ∀ (rs : List (B ⊕ GoError)) (b : B),
      ((tryLoop f b rs).2.countP (fun ev => ev.isDone)) = 0 := by
  intro rs
  induction rs with
  | nil =>
    intro b
    rw [tryLoop]
    cases (f b).2 with
    | none => simp [EHEvent.isDone]
    | some e =>
      by_cases he : e = GoError.eof <;> simp [he, EHEvent.isDone]
  | cons hd rs ih =>
    intro b
    cases hd with
    | inl b2 =>
      rw [tryLoop]
      cases (f b).2 with
      | none => simp [EHEvent.isDone]
      | some e =>
        by_cases he : e = GoError.eof
        · simp [he, EHEvent.isDone]
        · simp [he, EHEvent.isDone]
          intro a ha
          have hz := List.countP_eq_zero.mp (ih b2) a ha
          simpa [EHEvent.isDone] using hz
    | inr te =>
      rw [tryLoop]
      cases (f b).2 with
      | none => simp [EHEvent.isDone]
      | some e =>
        by_cases he : e = GoError.eof <;> simp [he, EHEvent.isDone]

/-- C4: for ReadAt, ToByteSlice and ToActionResult on the error-handling
buffer — all of which are tryRepeatedly applied to the corresponding
whole-buffer attempt — every terminating run restarts the entire
operation against each replacement buffer in turn until an attempt
succeeds or OnError returns a translated error, which is what the caller
receives, and the deferred errorHandler.Done() runs exactly once, as the
final event. -/
theorem ehBuffer_wholeOp_retry_contract {B R : Type} (f : B → R × Option GoError)
    (b : B) (rs : List (B ⊕ GoError)) (r : R × Option GoError)
    (h : (tryRepeatedly f b rs).1 = some r) :
    RetryOutcome f b rs r ∧
    (tryRepeatedly f b rs).2.countP (fun ev => ev.isDone) = 1 ∧
    (tryRepeatedly f b rs).2.getLast? = some EHEvent.done ∧
    ehReadAt = @tryRepeatedly B Nat ∧
    ehToByteSlice = @tryRepeatedly B (List Nat) ∧
    ehToActionResult = @tryRepeatedly B ActionResultModel := by
  rw [tryRepeatedly] at h ⊢
  by_cases hs : (tryLoop f b rs).1.isSome
  · simp only [hs, if_pos, if_true] at h ⊢
    refine ⟨tryLoop_retryOutcome f rs b r h, ?_, ?_, rfl, rfl, rfl⟩
    · rw [List.countP_append, tryLoop_no_done]
      simp [EHEvent.isDone]
    · simp
  · simp only [hs, if_false, if_neg, Bool.false_eq_true, not_false_eq_true] at h
    rw [Option.isSome_iff_exists] at hs
    exact absurd ⟨r, h⟩ hs

/-- Witness for C4: a base failing once, with the handler supplying one
replacement on which the attempt succeeds. -/
theorem ehBuffer_wholeOp_retry_contract_witness :
    RetryOutcome (fun n : Nat => (n, if n = 0 then some (GoError.msg "boom") else none))
      0 [Sum.inl 1] (1, none) ∧
    (tryRepeatedly (fun n : Nat => (n, if n = 0 then some (GoError.msg "boom") else none))
      0 [Sum.inl 1]).2.countP (fun ev => ev.isDone) = 1 ∧
    (tryRepeatedly (fun n : Nat => (n, if n = 0 then some (GoError.msg "boom") else none))
      0 [Sum.inl 1]).2.getLast? = some EHEvent.done ∧
    ehReadAt = @tryRepeatedly Nat Nat ∧
    ehToByteSlice = @tryRepeatedly Nat (List Nat) ∧
    ehToActionResult = @tryRepeatedly Nat ActionResultModel :=
  ehBuffer_wholeOp_retry_contract
    (fun n : Nat => (n, if n = 0 then some (GoError.msg "boom") else none))
    0 [Sum.inl 1] (1, none) (by decide)

/-- C9: an attempt result of io.EOF is treated as success by
tryRepeatedly: it is returned directly, OnError is never invoked, and
the only events are the single attempt and the deferred Done. -/
theorem ehBuffer_eof_returned_without_onError {B R : Type} (f : B → R × Option GoError)
    (b : B) (rs : List (B ⊕ GoError)) (h : (f b).2 = some GoError.eof) :
    tryRepeatedly f b rs = (some (f b), [.attempt b, .done]) ∧
    ∀ e, EHEvent.onError e ∉ (tryRepeatedly f b rs).2 := by
  have hl : tryLoop f b rs = (some (f b), [.attempt b]) := by
    cases rs with
    | nil => rw [tryLoop, h]; simp
    | cons hd rs =>
      cases hd with
      | inl b2 => rw [tryLoop, h]; simp
      | inr te => rw [tryLoop, h]; simp
  constructor
  · rw [tryRepeatedly, hl]
    simp
  · intro e
    rw [tryRepeatedly, hl]
    simp

/-- Witness for C9: a base returning io.EOF at once, with a handler
response available that is never consumed. -/
theorem ehBuffer_eof_returned_without_onError_witness :
    tryRepeatedly (fun n : Nat => (n, some GoError.eof)) 7 [Sum.inr (GoError.msg "t")] =
      (some (7, some GoError.eof), [.attempt 7, .done]) ∧
    ∀ e, EHEvent.onError e ∉
      (tryRepeatedly (fun n : Nat => (n, some GoError.eof)) 7
        [Sum.inr (GoError.msg "t")]).2 :=
  ehBuffer_eof_returned_without_onError (fun n : Nat => (n, some GoError.eof)) 7
    [Sum.inr (GoError.msg "t")] rfl

/-- C5: for the streaming reads of the error-handling buffer —
IntoWriter, ToChunkReader (at an accepted offset) and ToReader — the
checksum-validating reader sits strictly outside the retrying
(error-handling) reader: the validator is the direct downstream of the
retrying reader over the base buffer, and every retrying node of the
chain lies beneath a validator, so an error raised by the validator
itself is never seen by the error handler. -/
theorem ehBuffer_validator_outside_retry (sizeBytes off : Int)
    (h : validateReaderOffset sizeBytes off = none) :
    retryOnlyInsideValidation intoWriterReaderChain = true ∧
    validatorDirectlyAtopRetryOverBase intoWriterReaderChain = true ∧
    retryOnlyInsideValidation (ehToChunkReaderChain sizeBytes off) = true ∧
    validatorDirectlyAtopRetryOverBase (ehToChunkReaderChain sizeBytes off) = true ∧
    retryOnlyInsideValidation toReaderChain = true ∧
    validatorDirectlyAtopRetryOverBase toReaderChain = true ∧
    intoWriterReaderChain =
      .casValidatingChunkReader (.errorHandlingChunkReader 0 .baseBuffer) ∧
    ehToChunkReaderChain sizeBytes off =
      .offsetChunkReader off
        (.casValidatingChunkReader (.errorHandlingChunkReader 0 .baseBuffer)) ∧
    toReaderChain = .casValidatingReader (.errorHandlingReader 0 .baseBuffer) := by
  have h2 : ehToChunkReaderChain sizeBytes off =
      .offsetChunkReader off
        (.casValidatingChunkReader (.errorHandlingChunkReader 0 .baseBuffer)) := by
    rw [ehToChunkReaderChain, h]
    rfl
  refine ⟨rfl, rfl, ?_, ?_, rfl, rfl, rfl, h2, rfl⟩ <;>
    rw [h2] <;> rfl

/-- Witness for C5 at a concrete accepted offset. -/
theorem ehBuffer_validator_outside_retry_witness :
    retryOnlyInsideValidation intoWriterReaderChain = true ∧
    validatorDirectlyAtopRetryOverBase intoWriterReaderChain = true ∧
    retryOnlyInsideValidation (ehToChunkReaderChain 10 3) = true ∧
    validatorDirectlyAtopRetryOverBase (ehToChunkReaderChain 10 3) = true ∧
    retryOnlyInsideValidation toReaderChain = true ∧
    validatorDirectlyAtopRetryOverBase toReaderChain = true ∧
    intoWriterReaderChain =
      .casValidatingChunkReader (.errorHandlingChunkReader 0 .baseBuffer) ∧
    ehToChunkReaderChain 10 3 =
      .offsetChunkReader 3
        (.casValidatingChunkReader (.errorHandlingChunkReader 0 .baseBuffer)) ∧
    toReaderChain = .casValidatingReader (.errorHandlingReader 0 .baseBuffer) :=
  ehBuffer_validator_outside_retry 10 3 (by decide)

/-- C7: every operation of a buffer created by NewBufferFromError
returns the stored error: the direct conversions return it, the chunk
reader and reader fail with it on every read, both clone operations
return the same error buffer twice, Discard is a no-op that never fails,
and applyErrorHandler invokes OnError(err) immediately, yielding either
the replacement buffer or an error buffer carrying the translated error
with Done() called in the latter case. -/
theorem errorBuffer_every_operation_returns_stored_error {B : Type}
    (e te : GoError) (off : Int) (nb : B) :
    ebGetSizeBytes (newBufferFromError e) = (0, some e) ∧
    ebIntoWriter (newBufferFromError e) = some e ∧
    ebReadAt (newBufferFromError e) = (0, some e) ∧
    ebToActionResult (newBufferFromError e) = (none, some e) ∧
    ebToByteSlice (newBufferFromError e) = (none, some e) ∧
    ebToChunkReader (newBufferFromError e) off = .errorChunkReader e ∧
    ebToUnvalidatedChunkReader (newBufferFromError e) off = .errorChunkReader e ∧
    errorChunkReaderRead e = .error e ∧
    ebToReader (newBufferFromError e) = { err := e } ∧
    ebToUnvalidatedReader (newBufferFromError e) off = { err := e } ∧
    errorReaderRead (ebToReader (newBufferFromError e)) = .error e ∧
    ebCloneCopy (newBufferFromError e) = (newBufferFromError e, newBufferFromError e) ∧
    ebCloneStream (newBufferFromError e) = (newBufferFromError e, newBufferFromError e) ∧
    ebDiscard (newBufferFromError e) = none ∧
    ebApplyErrorHandler (newBufferFromError e) (Sum.inl nb) =
      (.replaced nb true, [.onError e]) ∧
    ebApplyErrorHandler (B := B) (newBufferFromError e) (Sum.inr te) =
      (.errorBuf (newBufferFromError te) false, [.onError e, .done]) :=
  ⟨rfl, rfl, rfl, rfl, rfl, rfl, rfl, rfl, rfl, rfl, rfl, rfl, rfl, rfl, rfl, rfl⟩

/-- C8: the remote backend builds its ByteStream resource names exactly
as the spec writes them — Get reads blobs/hash/size under the optional
namespace prefix, Put writes uploads/uuid/blobs/hash/size under the
optional namespace prefix with one fresh uuid drawn from the generator
per upload. -/
theorem casResourceNames_match_spec {G : Type} (d : DigestModel) (u : String)
    (uuidGenerator : G → String × G) (g : G) :
    getReadResourceName d = specReadResourceName d ∧
    putWriteResourceName d u = specWriteResourceName d u ∧
    casPutResourceName d uuidGenerator g =
      (specWriteResourceName d (uuidGenerator g).1, (uuidGenerator g).2) := by
  have hread : getReadResourceName d = specReadResourceName d := by
    rw [getReadResourceName, specReadResourceName]
    by_cases hi : d.instanceName = ""
    · rw [if_pos hi, if_pos hi, String.empty_append]
    · rw [if_neg hi, if_neg hi,
        show d.instanceName ++ "/" ++ "blobs/" = d.instanceName ++ "/blobs/" from
          (String.append_assoc _ _ _).trans rfl]
  have hwrite : ∀ v : String, putWriteResourceName d v = specWriteResourceName d v := by
    intro v
    rw [putWriteResourceName, specWriteResourceName]
    by_cases hi : d.instanceName = ""
    · rw [if_pos hi, if_pos hi, String.empty_append]
    · rw [if_neg hi, if_neg hi,
        show d.instanceName ++ "/" ++ "uploads/" = d.instanceName ++ "/uploads/" from
          (String.append_assoc _ _ _).trans rfl]
  exact ⟨hread, hwrite u, by rw [casPutResourceName, hwrite (uuidGenerator g).1]⟩
